import Mathlib

/-!
Shallow embedding of the two Graphcore-HuggingFace demo notebooks
(wav2vec2 speech-recognition inference, and named-entity-recognition
pipelines), covering the locally implemented logic:

* the batch builder of the speech notebook
  (`x = torch.zeros([num_device_iterations, max_samples], dtype=torch.half)`;
  `for i in range(num_device_iterations): ... x[i, :length] = input_values[0]`),
* the greedy decode step
  (`predicted_ids = torch.argmax(logits, dim=-1)`;
  `transcription = processor.batch_decode(predicted_ids)`),
* the device-release cells
  (`if inference_model.isAttachedToDevice(): inference_model.detachFromDevice()`
  in the speech notebook; bare `....model.detachFromDevice()` in the NER
  notebook),
* the web-UI sharing flag
  (`share_gradio = bool(os.getenv("GRADIO_SHARE_APP", False))`).

Tensor element values are modelled as integers, abstracting the numeric
representation; the dtype tag of a tensor is tracked separately, as the
notebook fixes `dtype=torch.half` for both the compilation sample batch and
the inference batch.
-/

/-- Numeric dtype tag of a torch tensor (`torch.half` vs `torch.float32`). -/
inductive DType where
  | half
  | float32
deriving DecidableEq

/-- A 2-D torch tensor: a dtype tag together with row-major data. -/
structure Tensor2D where
  dtype : DType
  data : List (List Int)
deriving DecidableEq

/-- `torch.zeros([n, m], dtype=dt)`: an `n × m` tensor of zeros. -/
def torchZeros (n m : Nat) (dt : DType) : Tensor2D :=
  ⟨dt, List.replicate n (List.replicate m 0)⟩

/-- The compilation sample batch of the speech notebook:
`torch.zeros([num_device_iterations, max_samples], dtype=torch.half)`. -/
def sample_batch (num_device_iterations max_samples : Nat) : Tensor2D :=
  torchZeros num_device_iterations max_samples DType.half

/-- PyTorch slice assignment `row[:seq.length] = seq` on a single row.
The view `row[:length]` has size `min length row.length`; the assignment
succeeds when the right-hand side is broadcastable to the view: either its
size equals the view size, or its size is `1` (a size-1 tensor expands to any
view size, filling every entry of the view with its single element).
Otherwise PyTorch raises a `RuntimeError` (expanded size must match). -/
def sliceAssignRow (row seq : List Int) : Except String (List Int) :=
  if seq.length = min seq.length row.length then
    Except.ok (seq ++ row.drop seq.length)
  else if seq.length = 1 then
    Except.ok (List.replicate (min seq.length row.length) (seq.getD 0 0)
      ++ row.drop (min seq.length row.length))
  else
    Except.error "The expanded size of the tensor must match the existing size"

/-- Slice assignment `x[i, :seq.length] = seq` on a 2-D tensor: row `i` is
updated in place, every other row and the dtype are untouched. -/
def sliceAssign (x : Tensor2D) (i : Nat) (seq : List Int) :
    Except String Tensor2D :=
  match sliceAssignRow (x.data.getD i []) seq with
  | Except.ok row => Except.ok ⟨x.dtype, x.data.set i row⟩
  | Except.error e => Except.error e

/-- State of the batch-construction cell: the processed input sequences
(`processor(ds[i]["audio"]["array"], ...).input_values`, already extracted)
and the tensor `x` being filled. -/
structure BuilderState where
  seqs : List (List Int)
  x : Tensor2D
deriving DecidableEq

/-- One iteration of the batch-construction loop:
`input_values = processor(ds[i][...]).input_values`;
`length = input_values.size(1)`; `x[i, :length] = input_values[0]`. -/
def buildStep (st : BuilderState) (i : Nat) : Except String BuilderState :=
  match sliceAssign st.x i (st.seqs.getD i []) with
  | Except.ok x => Except.ok ⟨st.seqs, x⟩
  | Except.error e => Except.error e

/-- The `for i in range(num_device_iterations)` loop, iterating `buildStep`
over a list of row indices; a raised error aborts the loop. -/
def buildLoop : List Nat → BuilderState → Except String BuilderState
  | [], st => Except.ok st
  | i :: rest, st =>
    match buildStep st i with
    | Except.ok st' => buildLoop rest st'
    | Except.error e => Except.error e

/-- The batch builder of the speech notebook:
`x = torch.zeros([num_device_iterations, max_samples], dtype=torch.half)`
followed by the loop writing each processed sequence into its row.  The row
count is the number of sequences (`num_device_iterations` in the source). -/
def runBuilder (max_samples : Nat) (seqs : List (List Int)) :
    Except String BuilderState :=
  buildLoop (List.range seqs.length)
    ⟨seqs, torchZeros seqs.length max_samples DType.half⟩

/-- The padded row the builder produces for a fitting sequence: the sequence
followed by trailing zeros up to `max_samples`. -/
def padRow (max_samples : Nat) (seq : List Int) : List Int :=
  seq ++ List.replicate (max_samples - seq.length) 0

/-- A device session: whether the process is attached to the IPU, plus a
count of `detachFromDevice` invocations made so far (instrumentation used to
state that the guarded cell never invokes `detachFromDevice` while
unattached). -/
structure Session where
  attached : Bool
  detachFromDeviceCalls : Nat
deriving DecidableEq

/-- `inference_model.isAttachedToDevice()`. -/
def isAttachedToDevice (s : Session) : Bool := s.attached

/-- `inference_model.detachFromDevice()`: releases the device. -/
def detachFromDevice (s : Session) : Session :=
  ⟨false, s.detachFromDeviceCalls + 1⟩

/-- The device-release cell of the speech notebook:
`if inference_model.isAttachedToDevice(): inference_model.detachFromDevice()`. -/
def detachStep (s : Session) : Session :=
  if isAttachedToDevice s then detachFromDevice s else s

/-- A device-release cell of the NER notebook:
`ner_pipeline.model.detachFromDevice()` — a bare call with no guard. -/
def nerDetachStep (s : Session) : Session :=
  detachFromDevice s

/-- `share_gradio = bool(os.getenv("GRADIO_SHARE_APP", False))`: when the
variable is unset, `os.getenv` returns the default `False` and `bool(False)`
is `False`; when it is set to string `v`, `bool(v)` is Python string
truthiness, i.e. `False` exactly for the empty string. -/
def share_gradio (env : Option String) : Bool :=
  match env with
  | none => false
  | some v => if v = "" then false else true

/-- Left-to-right scan for `torch.argmax` on a 1-D slice, keeping the first
maximal value seen so far and its index. -/
def argmaxGo : List ℚ → Nat → ℚ → Nat → Nat
  | [], _, _, best => best
  | a :: rest, idx, bestVal, best =>
    if bestVal < a then argmaxGo rest (idx + 1) a idx
    else argmaxGo rest (idx + 1) bestVal best

/-- `torch.argmax` over a 1-D slice: the index of the first maximal entry. -/
def argmaxLast (v : List ℚ) : Nat :=
  match v with
  | [] => 0
  | a :: rest => argmaxGo rest 1 a 0

/-- `predicted_ids = torch.argmax(logits, dim=-1)` for logits of shape
`[N, T, C]`: per row, per time step, the arg-max over the class axis. -/
def predictedIds (logits : List (List (List ℚ))) : List (List Nat) :=
  logits.map (fun row => row.map argmaxLast)

/-- The decode cell: arg-max over the last axis, then
`processor.batch_decode` (an external library routine, abstracted as an
arbitrary function from id sequences to transcripts). -/
def greedyDecode (batch_decode : List (List Nat) → List String)
    (logits : List (List (List ℚ))) : List String :=
  batch_decode (predictedIds logits)

/-! ### Helper lemmas -/

lemma getD_append_length {α : Type} (pre l : List α) (d : α) :
    (pre ++ l).getD pre.length d = l.getD 0 d := by
  induction pre with
  | nil => rfl
  | cons b t ih => simpa [List.getD_cons_succ] using ih

lemma set_append_length {α : Type} (pre l : List α) (a : α) :
    (pre ++ l).set pre.length a = pre ++ l.set 0 a := by
  induction pre with
  | nil => rfl
  | cons b t ih =>
    show b :: (t ++ l).set t.length a = b :: (t ++ l.set 0 a)
    rw [ih]

lemma sliceAssignRow_fit (row seq : List Int) (h : seq.length ≤ row.length) :
    sliceAssignRow row seq = Except.ok (seq ++ row.drop seq.length) := by
  unfold sliceAssignRow
  rw [if_pos (Nat.min_eq_left h).symm]

lemma sliceAssignRow_zeros_fit (max_samples : Nat) (seq : List Int)
    (h : seq.length ≤ max_samples) :
    sliceAssignRow (List.replicate max_samples 0) seq
      = Except.ok (padRow max_samples seq) := by
  rw [sliceAssignRow_fit _ _ (by simpa using h)]
  rw [padRow, List.drop_replicate]

lemma sliceAssignRow_overflow (row seq : List Int)
    (h1 : row.length < seq.length) (h2 : seq.length ≠ 1) :
    sliceAssignRow row seq
      = Except.error
          "The expanded size of the tensor must match the existing size" := by
  unfold sliceAssignRow
  rw [if_neg (by omega), if_neg h2]

lemma sliceAssignRow_length (row seq row' : List Int)
    (h : sliceAssignRow row seq = Except.ok row') : row'.length = row.length := by
  unfold sliceAssignRow at h
  split at h
  · next hc =>
    injection h with h'
    subst h'
    simp only [List.length_append, List.length_drop]
    omega
  · split at h
    · next =>
      injection h with h'
      subst h'
      simp only [List.length_append, List.length_drop, List.length_replicate]
      omega
    · exact absurd h (by simp)

lemma buildStep_fit (seqs : List (List Int)) (dt : DType)
    (pre rest : List (List Int)) (max_samples : Nat)
    (hfit : (seqs.getD pre.length []).length ≤ max_samples) :
    buildStep ⟨seqs, ⟨dt, pre ++ List.replicate max_samples 0 :: rest⟩⟩
        pre.length
      = Except.ok ⟨seqs,
          ⟨dt, (pre ++ [padRow max_samples (seqs.getD pre.length [])])
            ++ rest⟩⟩ := by
  unfold buildStep sliceAssign
  have hrow : (pre ++ List.replicate max_samples 0 :: rest).getD pre.length
      ([] : List Int) = List.replicate max_samples 0 := by
    rw [getD_append_length, List.getD_cons_zero]
  rw [hrow, sliceAssignRow_zeros_fit _ _ hfit]
  dsimp only
  rw [set_append_length]
  simp [List.append_assoc]

lemma buildStep_broadcast (seqs : List (List Int)) (dt : DType)
    (pre rest : List (List Int))
    (h1 : (seqs.getD pre.length []).length = 1) :
    buildStep ⟨seqs, ⟨dt, pre ++ ([] : List Int) :: rest⟩⟩ pre.length
      = Except.ok ⟨seqs, ⟨dt, (pre ++ [([] : List Int)]) ++ rest⟩⟩ := by
  unfold buildStep sliceAssign
  have hrow : (pre ++ ([] : List Int) :: rest).getD pre.length ([] : List Int)
      = [] := by
    rw [getD_append_length, List.getD_cons_zero]
  rw [hrow]
  unfold sliceAssignRow
  rw [h1]
  rw [if_neg (by simp), if_pos rfl]
  simp only [Nat.min_self, Nat.le_refl, Nat.min_eq_right, List.length_nil,
    Nat.min_zero, List.replicate_zero, List.drop_nil, List.nil_append]
  rw [set_append_length]
  simp [List.append_assoc]

lemma buildStep_overflow (seqs : List (List Int)) (dt : DType)
    (pre rest : List (List Int)) (max_samples : Nat)
    (h1 : max_samples < (seqs.getD pre.length []).length)
    (h2 : (seqs.getD pre.length []).length ≠ 1) :
    buildStep ⟨seqs, ⟨dt, pre ++ List.replicate max_samples 0 :: rest⟩⟩
        pre.length
      = Except.error
          "The expanded size of the tensor must match the existing size" := by
  unfold buildStep sliceAssign
  have hrow : (pre ++ List.replicate max_samples 0 :: rest).getD pre.length
      ([] : List Int) = List.replicate max_samples 0 := by
    rw [getD_append_length, List.getD_cons_zero]
  rw [hrow, sliceAssignRow_overflow _ _ (by simpa using h1) h2]

lemma buildStep_preserve (st st' : BuilderState) (i : Nat)
    (h : buildStep st i = Except.ok st') :
    st'.seqs = st.seqs ∧ st'.x.dtype = st.x.dtype ∧
      st'.x.data.length = st.x.data.length ∧
      ∀ m, (∀ r ∈ st.x.data, r.length = m) → ∀ r ∈ st'.x.data, r.length = m := by
  unfold buildStep sliceAssign at h
  cases hr : sliceAssignRow (st.x.data.getD i []) (st.seqs.getD i []) with
  | error e =>
    rw [hr] at h
    exact absurd h (by simp)
  | ok row =>
    rw [hr] at h
    dsimp only at h
    injection h with h'
    subst h'
    refine ⟨rfl, rfl, List.length_set _ _ _, ?_⟩
    intro m hm r hrmem
    by_cases hi : i < st.x.data.length
    · rcases List.mem_or_eq_of_mem_set hrmem with hmem | heq
      · exact hm r hmem
      · subst heq
        rw [sliceAssignRow_length _ _ _ hr, List.getD_eq_getElem _ _ hi]
        exact hm _ (List.getElem_mem hi)
    · rw [List.set_eq_of_length_le (by omega)] at hrmem
      exact hm r hrmem

lemma buildLoop_preserve (idxs : List Nat) (st st' : BuilderState)
    (h : buildLoop idxs st = Except.ok st') :
    st'.seqs = st.seqs ∧ st'.x.dtype = st.x.dtype ∧
      st'.x.data.length = st.x.data.length ∧
      ∀ m, (∀ r ∈ st.x.data, r.length = m) → ∀ r ∈ st'.x.data, r.length = m := by
  induction idxs generalizing st with
  | nil =>
    unfold buildLoop at h
    injection h with h'
    subst h'
    exact ⟨rfl, rfl, rfl, fun _ hm => hm⟩
  | cons i rest ih =>
    unfold buildLoop at h
    cases hs : buildStep st i with
    | error e =>
      rw [hs] at h
      exact absurd h (by simp)
    | ok mid =>
      rw [hs] at h
      dsimp only at h
      obtain ⟨m1, m2, m3, m4⟩ := buildStep_preserve st mid i hs
      obtain ⟨l1, l2, l3, l4⟩ := ih mid h
      exact ⟨l1.trans m1, l2.trans m2, l3.trans m3,
        fun m hm => l4 m (m4 m hm)⟩

lemma buildLoop_ok (max_samples : Nat) (seqs : List (List Int)) (dt : DType)
    (n k : Nat) (pre : List (List Int))
    (hpre : pre.length = k) (hlen : seqs.length = k + n)
    (hfit : ∀ j, k ≤ j → j < seqs.length →
      (seqs.getD j []).length ≤ max_samples) :
    buildLoop (List.range' k n)
        ⟨seqs, ⟨dt, pre ++ List.replicate n (List.replicate max_samples 0)⟩⟩
      = Except.ok ⟨seqs,
          ⟨dt, pre ++ (seqs.drop k).map (padRow max_samples)⟩⟩ := by
  induction n generalizing k pre with
  | zero =>
    have hk : k = seqs.length := by omega
    subst hk
    simp [buildLoop, List.range'_zero, List.drop_length]
  | succ n ih =>
    subst hpre
    have hk : pre.length < seqs.length := by omega
    rw [List.range'_succ, List.replicate_succ]
    have hstep := buildStep_fit seqs dt pre
      (List.replicate n (List.replicate max_samples 0)) max_samples
      (hfit pre.length le_rfl hk)
    rw [buildLoop, hstep]
    dsimp only
    rw [ih (pre.length + 1)
      (pre ++ [padRow max_samples (seqs.getD pre.length [])])
      (by simp) (by omega)
      (fun j h1 h2 => hfit j (by omega) h2)]
    rw [List.drop_eq_getElem_cons hk, ← List.getD_eq_getElem seqs [] hk]
    simp [List.append_assoc]

lemma buildLoop_error (max_samples : Nat) (seqs : List (List Int)) (dt : DType)
    (n k : Nat) (pre : List (List Int))
    (hpre : pre.length = k) (hlen : seqs.length = k + n)
    (j : Nat) (hkj : k ≤ j) (hj : j < seqs.length)
    (hover : max_samples < (seqs.getD j []).length)
    (h2 : 2 ≤ (seqs.getD j []).length) :
    buildLoop (List.range' k n)
        ⟨seqs, ⟨dt, pre ++ List.replicate n (List.replicate max_samples 0)⟩⟩
      = Except.error
          "The expanded size of the tensor must match the existing size" := by
  induction n generalizing k pre with
  | zero => omega
  | succ n ih =>
    subst hpre
    have hk : pre.length < seqs.length := by omega
    rw [List.range'_succ, List.replicate_succ]
    by_cases hck : (seqs.getD pre.length []).length ≤ max_samples
    · have hstep := buildStep_fit seqs dt pre
        (List.replicate n (List.replicate max_samples 0)) max_samples hck
      rw [buildLoop, hstep]
      dsimp only
      have hjk : pre.length + 1 ≤ j := by
        rcases Nat.lt_or_ge pre.length j with h | h
        · omega
        · exfalso
          have : j = pre.length := by omega
          subst this
          omega
      exact ih (pre.length + 1)
        (pre ++ [padRow max_samples (seqs.getD pre.length [])])
        (by simp) (by omega) hjk
    · by_cases h1 : (seqs.getD pre.length []).length = 1
      · have hmax : max_samples = 0 := by omega
        subst hmax
        have hstep := buildStep_broadcast seqs dt pre
          (List.replicate n (List.replicate 0 0)) h1
        rw [show (List.replicate 0 (0 : Int)) = [] from rfl] at *
        rw [buildLoop, hstep]
        dsimp only
        have hjk : pre.length + 1 ≤ j := by
          rcases Nat.lt_or_ge pre.length j with h | h
          · omega
          · exfalso
            have : j = pre.length := by omega
            subst this
            omega
        exact ih (pre.length + 1) (pre ++ [[]]) (by simp) (by omega) hjk
      · have hstep := buildStep_overflow seqs dt pre
          (List.replicate n (List.replicate max_samples 0)) max_samples
          (by omega) h1
        rw [buildLoop, hstep]

lemma padRow_length (max_samples : Nat) (seq : List Int)
    (h : seq.length ≤ max_samples) :
    (padRow max_samples seq).length = max_samples := by
  simp only [padRow, List.length_append, List.length_replicate]
  omega

lemma padRow_take (max_samples : Nat) (seq : List Int) :
    (padRow max_samples seq).take seq.length = seq :=
  List.take_left seq _

lemma padRow_drop (max_samples : Nat) (seq : List Int) :
    (padRow max_samples seq).drop seq.length
      = List.replicate (max_samples - seq.length) 0 :=
  List.drop_left seq _

/-- Closed form of the batch builder when every sequence fits: it succeeds
and row `i` is sequence `i` padded with trailing zeros to `max_samples`. -/
lemma runBuilder_fit (max_samples : Nat) (seqs : List (List Int))
    (hfit : ∀ s ∈ seqs, s.length ≤ max_samples) :
    runBuilder max_samples seqs
      = Except.ok ⟨seqs, ⟨DType.half, seqs.map (padRow max_samples)⟩⟩ := by
  have h := buildLoop_ok max_samples seqs DType.half seqs.length 0 [] rfl
    (by omega)
    (fun j h0 hj => by
      rw [List.getD_eq_getElem seqs [] hj]
      exact hfit _ (List.getElem_mem hj))
  rw [List.nil_append, List.drop_zero] at h
  unfold runBuilder torchZeros
  rw [List.range_eq_range']
  exact h

/-- When some sequence, of length at least 2, is longer than `max_samples`,
the builder raises the PyTorch broadcast error. -/
lemma runBuilder_overflow (max_samples : Nat) (seqs : List (List Int))
    (j : Nat) (hj : j < seqs.length)
    (hover : max_samples < (seqs.getD j []).length)
    (h2 : 2 ≤ (seqs.getD j []).length) :
    runBuilder max_samples seqs
      = Except.error
          "The expanded size of the tensor must match the existing size" := by
  have h := buildLoop_error max_samples seqs DType.half seqs.length 0 [] rfl
    (by omega) j (Nat.zero_le j) hj hover h2
  rw [List.nil_append] at h
  unfold runBuilder torchZeros
  rw [List.range_eq_range']
  exact h

/-! ### Claim theorems -/

/-- C1: for every `max_length` and list of sequences each no longer than
`max_length`, the builder succeeds and produces one row per sequence; row
`i` has length `max_length`, its first `length_i` entries are sequence `i`
exactly, and its remaining entries are all zero. -/
theorem C1_batch_builder_correct (max_length : Nat) (seqs : List (List Int))
    (hfit : ∀ s ∈ seqs, s.length ≤ max_length) :
    ∃ st, runBuilder max_length seqs = Except.ok st ∧
      st.x.data.length = seqs.length ∧
      ∀ i, i < seqs.length →
        (st.x.data.getD i []).length = max_length ∧
        (st.x.data.getD i []).take (seqs.getD i []).length = seqs.getD i [] ∧
        (st.x.data.getD i []).drop (seqs.getD i []).length
          = List.replicate (max_length - (seqs.getD i []).length) 0 := by
  refine ⟨_, runBuilder_fit max_length seqs hfit, by simp, ?_⟩
  intro i hi
  show ((seqs.map (padRow max_length)).getD i []).length = max_length ∧ _ ∧ _
  have hrow : (seqs.map (padRow max_length)).getD i []
      = padRow max_length (seqs.getD i []) := by
    rw [List.getD_eq_getElem _ _ (by simpa using hi),
      List.getD_eq_getElem seqs [] hi, List.getElem_map]
  rw [hrow]
  have hle : (seqs.getD i []).length ≤ max_length := by
    rw [List.getD_eq_getElem seqs [] hi]
    exact hfit _ (List.getElem_mem hi)
  exact ⟨padRow_length _ _ hle, padRow_take _ _, padRow_drop _ _⟩

/-- Witness for C1: `max_length = 3`, one sequence `[1, 2]`. -/
theorem C1_batch_builder_correct_witness :
    (∀ s ∈ [[(1 : Int), 2]], s.length ≤ 3) ∧
      (∃ st, runBuilder 3 [[(1 : Int), 2]] = Except.ok st ∧
        st.x.data.length = ([[(1 : Int), 2]] : List (List Int)).length ∧
        ∀ i, i < ([[(1 : Int), 2]] : List (List Int)).length →
          (st.x.data.getD i []).length = 3 ∧
          (st.x.data.getD i []).take
              (([[(1 : Int), 2]] : List (List Int)).getD i []).length
            = ([[(1 : Int), 2]] : List (List Int)).getD i [] ∧
          (st.x.data.getD i []).drop
              (([[(1 : Int), 2]] : List (List Int)).getD i []).length
            = List.replicate
                (3 - (([[(1 : Int), 2]] : List (List Int)).getD i []).length)
                0) :=
  ⟨by decide, C1_batch_builder_correct 3 [[1, 2]] (by decide)⟩

/-- C2 counterexample: with `max_length = 2` and the single sequence
`[1, 2, 3]`, the slice assignment raises a broadcast error; the builder does
not complete, and in particular does not return the silently truncated
batch `[[1, 2]]` the claim describes. -/
theorem C2_counterexample :
    runBuilder 2 [[(1 : Int), 2, 3]]
        = Except.error
            "The expanded size of the tensor must match the existing size" ∧
      runBuilder 2 [[(1 : Int), 2, 3]]
        ≠ Except.ok ⟨[[1, 2, 3]], ⟨DType.half, [[1, 2]]⟩⟩ := by
  refine ⟨rfl, ?_⟩
  intro h
  rw [show runBuilder 2 [[(1 : Int), 2, 3]]
      = Except.error
          "The expanded size of the tensor must match the existing size"
    from rfl] at h
  exact Except.noConfusion h

/-- C2 (amended): an input sequence longer than `max_length` makes the
builder raise a shape-mismatch error and abort, rather than truncate
silently (the sole exception, immaterial here, is a length-1 sequence with
`max_length = 0`, where size-1 broadcasting makes the write a no-op). -/
theorem C2_overflow_raises (max_length : Nat) (seqs : List (List Int))
    (j : Nat) (hj : j < seqs.length)
    (hover : max_length < (seqs.getD j []).length)
    (h2 : 2 ≤ (seqs.getD j []).length) :
    runBuilder max_length seqs
      = Except.error
          "The expanded size of the tensor must match the existing size" :=
  runBuilder_overflow max_length seqs j hj hover h2

/-- Witness for C2 (amended): `max_length = 2`, sequence `[1, 2, 3]`. -/
theorem C2_overflow_raises_witness :
    (0 < ([[(1 : Int), 2, 3]] : List (List Int)).length ∧
      2 < (([[(1 : Int), 2, 3]] : List (List Int)).getD 0 []).length ∧
      2 ≤ (([[(1 : Int), 2, 3]] : List (List Int)).getD 0 []).length) ∧
      runBuilder 2 [[(1 : Int), 2, 3]]
        = Except.error
            "The expanded size of the tensor must match the existing size" :=
  ⟨⟨by decide, by decide, by decide⟩,
    C2_overflow_raises 2 [[1, 2, 3]] 0 (by decide) (by decide) (by decide)⟩

/-- C3 counterexample: the NER notebook's device-release cell is a bare
`detachFromDevice()` call with no `isAttachedToDevice` guard: run on an
unattached session it still invokes `detachFromDevice` (the invocation
counter increments, and the state changes), refuting "every detach call is
guarded by the `isAttachedToDevice` query". -/
theorem C3_counterexample :
    isAttachedToDevice ⟨false, 0⟩ = false ∧
      (nerDetachStep ⟨false, 0⟩).detachFromDeviceCalls = 1 ∧
      nerDetachStep ⟨false, 0⟩ ≠ (⟨false, 0⟩ : Session) := by
  decide

/-- C3 (amended): the speech notebook's device-release cell is guarded by
`isAttachedToDevice`, so on an unattached session it is a no-op and never
invokes `detachFromDevice`; the NER notebook's release cells are unguarded
bare calls. -/
theorem C3_detach_guarded (s : Session)
    (h : isAttachedToDevice s = false) :
    detachStep s = s ∧
      (detachStep s).detachFromDeviceCalls = s.detachFromDeviceCalls := by
  simp [detachStep, h]

/-- Witness for C3 (amended): the unattached session with 5 prior calls. -/
theorem C3_detach_guarded_witness :
    isAttachedToDevice ⟨false, 5⟩ = false ∧
      (detachStep ⟨false, 5⟩ = (⟨false, 5⟩ : Session) ∧
        (detachStep ⟨false, 5⟩).detachFromDeviceCalls
          = (⟨false, 5⟩ : Session).detachFromDeviceCalls) :=
  ⟨rfl, C3_detach_guarded ⟨false, 5⟩ rfl⟩

/-- C5: a sequence whose length is exactly `max_length` occupies its whole
output row: the row equals the sequence itself, with no padding entries. -/
theorem C5_boundary_full_row (max_length : Nat) (seqs : List (List Int))
    (i : Nat) (hfit : ∀ s ∈ seqs, s.length ≤ max_length)
    (hi : i < seqs.length)
    (hlen : (seqs.getD i []).length = max_length) :
    ∃ st, runBuilder max_length seqs = Except.ok st ∧
      st.x.data.getD i [] = seqs.getD i [] := by
  refine ⟨_, runBuilder_fit max_length seqs hfit, ?_⟩
  show (seqs.map (padRow max_length)).getD i [] = _
  have hrow : (seqs.map (padRow max_length)).getD i []
      = padRow max_length (seqs.getD i []) := by
    rw [List.getD_eq_getElem _ _ (by simpa using hi),
      List.getD_eq_getElem seqs [] hi, List.getElem_map]
  rw [hrow]
  unfold padRow
  rw [hlen, Nat.sub_self, List.replicate_zero, List.append_nil]

/-- Witness for C5: `max_length = 2`, sequences `[[3, 4]]`, row 0. -/
theorem C5_boundary_full_row_witness :
    ((∀ s ∈ [[(3 : Int), 4]], s.length ≤ 2) ∧
      0 < ([[(3 : Int), 4]] : List (List Int)).length ∧
      (([[(3 : Int), 4]] : List (List Int)).getD 0 []).length = 2) ∧
      (∃ st, runBuilder 2 [[(3 : Int), 4]] = Except.ok st ∧
        st.x.data.getD 0 [] = ([[(3 : Int), 4]] : List (List Int)).getD 0 []) :=
  ⟨⟨by decide, by decide, by decide⟩,
    C5_boundary_full_row 2 [[3, 4]] 0 (by decide) (by decide) (by decide)⟩

/-- C6: the batch builder is deterministic: two runs on the same
`max_length` and sequences that both complete return equal states
(bit-identical output). -/
theorem C6_deterministic (max_length : Nat) (seqs : List (List Int))
    (st₁ st₂ : BuilderState)
    (h₁ : runBuilder max_length seqs = Except.ok st₁)
    (h₂ : runBuilder max_length seqs = Except.ok st₂) : st₁ = st₂ := by
  rw [h₁] at h₂
  injection h₂

/-- Witness for C6: two runs at `max_length = 2` on `[[7]]`. -/
theorem C6_deterministic_witness :
    (runBuilder 2 [[(7 : Int)]]
        = Except.ok ⟨[[7]], ⟨DType.half, [[7, 0]]⟩⟩ ∧
      runBuilder 2 [[(7 : Int)]]
        = Except.ok ⟨[[7]], ⟨DType.half, [[7, 0]]⟩⟩) ∧
      (⟨[[(7 : Int)]], ⟨DType.half, [[7, 0]]⟩⟩ : BuilderState)
        = ⟨[[7]], ⟨DType.half, [[7, 0]]⟩⟩ :=
  ⟨⟨rfl, rfl⟩, C6_deterministic 2 [[7]] _ _ rfl rfl⟩

/-- C7: greedy decoding is deterministic: identical logits tensors produce
identical text output through arg-max-then-`batch_decode`, for any (fixed)
external `batch_decode` routine. -/
theorem C7_decode_deterministic
    (batch_decode : List (List Nat) → List String)
    (logits₁ logits₂ : List (List (List ℚ)))
    (h : logits₁ = logits₂) :
    greedyDecode batch_decode logits₁ = greedyDecode batch_decode logits₂ := by
  rw [h]

/-- Witness for C7: a concrete `1 × 1 × 2` logits tensor. -/
theorem C7_decode_deterministic_witness :
    ([[[(3 : ℚ), 1]]] = [[[(3 : ℚ), 1]]]) ∧
      greedyDecode (fun ids => [toString ids.length]) [[[(3 : ℚ), 1]]]
        = greedyDecode (fun ids => [toString ids.length]) [[[(3 : ℚ), 1]]] :=
  ⟨rfl, C7_decode_deterministic _ _ _ rfl⟩

/-- C8: frame property: a completed run of the builder leaves the input
sequences unchanged; only the freshly allocated output tensor is written. -/
theorem C8_frame (max_length : Nat) (seqs : List (List Int))
    (st : BuilderState) (h : runBuilder max_length seqs = Except.ok st) :
    st.seqs = seqs := by
  unfold runBuilder at h
  exact (buildLoop_preserve _ _ _ h).1

/-- Witness for C8: a completed run at `max_length = 3` on `[[2, 4]]`. -/
theorem C8_frame_witness :
    runBuilder 3 [[(2 : Int), 4]]
        = Except.ok ⟨[[2, 4]], ⟨DType.half, [[2, 4, 0]]⟩⟩ ∧
      (⟨[[(2 : Int), 4]], ⟨DType.half, [[2, 4, 0]]⟩⟩ : BuilderState).seqs
        = [[(2 : Int), 4]] :=
  ⟨rfl, C8_frame 3 [[2, 4]] _ rfl⟩

/-- C10: any batch the builder completes has exactly the shape
`[num_device_iterations, max_samples]` and the dtype (half) of the sample
batch the model was compiled for. -/
theorem C10_static_shapes (num_device_iterations max_samples : Nat)
    (seqs : List (List Int)) (st : BuilderState)
    (hn : seqs.length = num_device_iterations)
    (h : runBuilder max_samples seqs = Except.ok st) :
    st.x.dtype = (sample_batch num_device_iterations max_samples).dtype ∧
      st.x.data.length
        = (sample_batch num_device_iterations max_samples).data.length ∧
      (∀ r ∈ st.x.data, r.length = max_samples) ∧
      ∀ r ∈ (sample_batch num_device_iterations max_samples).data,
        r.length = max_samples := by
  unfold runBuilder at h
  obtain ⟨h1, h2, h3, h4⟩ := buildLoop_preserve _ _ _ h
  refine ⟨?_, ?_, ?_, ?_⟩
  · rw [h2]
    rfl
  · rw [h3]
    simp [torchZeros, sample_batch, hn]
  · refine h4 max_samples ?_
    intro r hr
    simp only [torchZeros] at hr
    rw [List.eq_of_mem_replicate hr]
    simp
  · intro r hr
    simp only [sample_batch, torchZeros] at hr
    rw [List.eq_of_mem_replicate hr]
    simp

/-- Witness for C10: one sequence `[5]`, `num_device_iterations = 1`,
`max_samples = 2`. -/
theorem C10_static_shapes_witness :
    (([[(5 : Int)]] : List (List Int)).length = 1 ∧
      runBuilder 2 [[(5 : Int)]]
        = Except.ok ⟨[[5]], ⟨DType.half, [[5, 0]]⟩⟩) ∧
      ((⟨[[(5 : Int)]], ⟨DType.half, [[5, 0]]⟩⟩ : BuilderState).x.dtype
          = (sample_batch 1 2).dtype ∧
        (⟨[[(5 : Int)]], ⟨DType.half, [[5, 0]]⟩⟩ : BuilderState).x.data.length
          = (sample_batch 1 2).data.length ∧
        (∀ r ∈ (⟨[[(5 : Int)]], ⟨DType.half, [[5, 0]]⟩⟩ : BuilderState).x.data,
          r.length = 2) ∧
        ∀ r ∈ (sample_batch 1 2).data, r.length = 2) :=
  ⟨⟨rfl, rfl⟩, C10_static_shapes 1 2 [[5]] _ rfl rfl⟩

/-- C4: applying the batch builder with `max_length = 5` to the sequences
`[1,2,3]` and `[4,5]` (so `N = 2`) yields exactly the output
`[[1,2,3,0,0],[4,5,0,0,0]]`, with the inputs unchanged and dtype half. -/
theorem C4_scenario :
    runBuilder 5 [[1, 2, 3], [4, 5]]
      = Except.ok ⟨[[1, 2, 3], [4, 5]],
          ⟨DType.half, [[1, 2, 3, 0, 0], [4, 5, 0, 0, 0]]⟩⟩ := by
  rfl

/-- C9: the web-UI sharing flag is `False` exactly when `GRADIO_SHARE_APP`
is unset or set to the empty string; any non-empty value, including `"0"`
and `"False"`, makes it `True`. -/
theorem C9_share_flag :
    (∀ v, share_gradio v = false ↔ (v = none ∨ v = some "")) ∧
      share_gradio (some "0") = true ∧ share_gradio (some "False") = true := by
  refine ⟨?_, rfl, rfl⟩
  intro v
  match v with
  | none => simp [share_gradio]
  | some s =>
    by_cases h : s = "" <;> simp [share_gradio, h]
